import Mathlib

/-!
Verification development for the frame lifecycle engine of the fetch-plus
repository (src/LiveResponse.js).

The engine is embedded shallowly and executably:

* `ResponseFrame`, `FrameOptions` mirror the frame objects and the options
  record processed by the private dispatch method of `LiveResponse`.
* The mutable instance (private fields, ready-state gates, abort
  controllers, promise reactions and the microtask queue) is embedded as
  the state record `LiveResponse.State`; JavaScript promises are
  defunctionalized into a table of promise entries plus a queue of
  reaction tasks (`Reaction`, `Task`), and `AbortController` instances are
  embedded as generation counters plus explicit listener lists, so that
  `disconnect` firing its abort listeners synchronously is reproduced
  exactly.
* Each source method (`constructor`, `replaceWith`, the private dispatch
  written here as `replaceWithInternal`, `directReplaceWith`,
  `wrapReplaceWith`, `extendLifecycle`, `disconnect`,
  `execReplaceWithGenerator`) becomes a state-passing function translated
  statement by statement from the source.  The modeled input shapes are
  the immediate-value and pending(`Promise`) dispatch paths, plus the
  generator dispatcher; the `Response`/`LiveProgramHandle` paths and the
  frame-closure argument are collaborator-facing and outside the claims
  under study.
* `.then(h).catch(g)` chains whose intermediate derived promise is only a
  pass-through are modeled as a single reaction dispatching on the
  settlement outcome; this collapses an unobservable intermediate tick
  and nothing else.

Scenario runs are closed executable terms, so claims are settled by
kernel evaluation, and the universally quantified claims are proved by
induction over the corresponding definitions.
-/

set_option maxHeartbeats 4000000

namespace FetchPlus

/-- JavaScript values that can appear as a response body or a promise
resolution value in the modeled fragment. -/
inductive JSVal where
  | undef
  | nullV
  | boolV (b : Bool)
  | numV (n : Int)
  | strV (s : String)
  deriving DecidableEq, Repr

/-- Errors thrown or used as promise rejection reasons in the modeled
fragment.  `external` stands for an arbitrary caller-supplied rejection
reason of a pending input. -/
inductive JSError where
  | alreadyDone
  | statusOutOfRange (s : Int)
  | external (n : Nat)
  deriving DecidableEq, Repr

/-- The three ready states exposed by the `readyState` getter. -/
inductive ReadyState where
  | waiting
  | live
  | done
  deriving DecidableEq, Repr

/-- One immutable response frame, as frozen by `directReplaceWith`:
fields body, status, statusText, headers, type, redirected, url,
concurrent, port, plus the recomputed `ok` and `bodyUsed`. -/
structure ResponseFrame where
  body : JSVal
  status : Int
  statusText : String
  headers : List (String × String)
  type : String
  redirected : Bool
  url : Option JSVal
  concurrent : Bool
  port : Option Nat
  ok : Bool
  bodyUsed : Bool
  deriving DecidableEq, Repr

/-- The options record accepted by the constructor and `replaceWith`
(after the coercions in the options-processing block; `parseInt` and the
`Headers` coercion are identities here because statuses are already
integers and headers already entry lists). -/
structure FrameOptions where
  status : Option Int := none
  statusText : Option String := none
  headers : Option (List (String × String)) := none
  done : Option Bool := none
  concurrent : Option Bool := none
  deriving DecidableEq, Repr

/-- The `ok` computation of the source, appearing identically in the `ok`
getter and in the freeze step of `directReplaceWith`:
`!!(status >= 200 && status < 299)`. -/
def okOf (status : Int) : Bool :=
  decide (200 ≤ status) && decide (status < 299)

/-- `Headers.delete(name)`: removes every entry with the given name. -/
def headersDelete (hs : List (String × String)) (name : String) :
    List (String × String) :=
  hs.filter (fun p => !(p.1 == name))

/-- The header-clearing loop of `directReplaceWith`: iterate over a
snapshot of the current entries, deleting each name from the live
object. -/
def clearHeaders (hs : List (String × String)) : List (String × String) :=
  hs.foldl (fun acc p => headersDelete acc p.1) hs

/-- Values a modeled promise or gate can settle with: a plain JS value, a
frozen response frame (the `now` gates), or the instance itself (the
`live` gate resolves with `this`). -/
inductive GateVal where
  | js (v : JSVal)
  | frameV (f : ResponseFrame)
  | selfV
  deriving DecidableEq, Repr

/-- A settlement outcome of a promise or gate. -/
inductive Settled where
  | fulfilled (v : GateVal)
  | rejected (e : JSError)
  deriving DecidableEq, Repr

/-- One ready-state gate (`live` or `done`): the `.state` flag consulted
by the `readyState` getter plus the single-settlement promise. -/
structure GateState where
  state : Bool
  settled : Option Settled
  deriving DecidableEq, Repr

/-- One frame cycle object (the refreshed `now` gate together with its
`aborted` mark set by the abort listener of the pending-input path). -/
structure Cycle where
  aborted : Bool
  settled : Option Settled
  deriving DecidableEq, Repr

/-- Defunctionalized promise reactions.  Each constructor is one `.then`
or `.catch` handler closure of the source, identified by the promise and
cycle identifiers it captured. -/
inductive Reaction where
  | extendThen (pid : Nat)
  | bodyThen (cid : Nat) (opts : FrameOptions) (wrapPid : Nat)
  | afterRedispatch (wrapPid : Nat)
  | returnFromDone (retPid : Nat)
  | publicAwait (pubPid : Nat)
  | constructorCatch (cid : Nat)
  deriving DecidableEq, Repr

/-- One entry of the promise table: the settlement state (`none` while
pending) and the reactions registered while pending. -/
structure PromEntry where
  state : Option Settled
  reactions : List Reaction
  deriving DecidableEq, Repr

/-- A queued microtask: a reaction to run with the settlement outcome of
the promise it was registered on. -/
structure Task where
  reaction : Reaction
  outcome : Settled
  deriving DecidableEq, Repr

/-- Abort listeners registered on the current disconnect controller: the
pending-input listener (marks the cycle aborted and resolves the wrapper
promise) and the completion-promise listener (`resolve(false)`). -/
inductive AbortListener where
  | promiseInputAbort (cid : Nat) (wrapPid : Nat)
  | returnPromiseAbort (retPid : Nat)
  deriving DecidableEq, Repr

/-- The full instance state of a `LiveResponse`: the private fields, the
ready-state gates, the cycle table, the abort-controller generations with
their listeners, the promise table and the microtask queue.  `emitted`
records the frozen frames carried by the dispatched replace events, in
order. -/
structure State where
  body : JSVal
  status : Int
  statusText : String
  headersId : Nat
  headers : List (String × String)
  type : String
  redirected : Bool
  url : Option JSVal
  concurrent : Bool
  port : Option Nat
  live : GateState
  doneGate : GateState
  nowId : Nat
  cycles : List (Nat × Cycle)
  nextCycleId : Nat
  promises : List (Nat × PromEntry)
  nextPromId : Nat
  currentFramePromise : Option Nat
  abortGen : Nat
  signalAborted : Bool
  abortListeners : List (Nat × AbortListener)
  concGen : Nat
  tasks : List Task
  emitted : List ResponseFrame
  deriving DecidableEq, Repr

/-- Last-match lookup in an association list (later entries shadow
earlier ones; keys are in fact never duplicated by the engine). -/
def lookupLast {α : Type} (l : List (Nat × α)) (k : Nat) : Option α :=
  l.foldl (fun acc p => if p.1 = k then some p.2 else acc) none

/-- Pointwise update of every entry with the given key. -/
def updateAssoc {α : Type} (l : List (Nat × α)) (k : Nat) (f : α → α) :
    List (Nat × α) :=
  l.map (fun p => if p.1 = k then (p.1, f p.2) else p)

namespace State

/-- The `aborted` mark of a cycle (`frame.aborted` in the source). -/
def cycleAborted (s : State) (cid : Nat) : Bool :=
  match lookupLast s.cycles cid with
  | some c => c.aborted
  | none => false

/-- The settlement of a cycle's `now` gate. -/
def cycleSettled (s : State) (cid : Nat) : Option Settled :=
  match lookupLast s.cycles cid with
  | some c => c.settled
  | none => none

/-- Mark a cycle aborted (`frame.aborted = true`). -/
def setCycleAborted (s : State) (cid : Nat) : State :=
  { s with cycles := updateAssoc s.cycles cid (fun c => { c with aborted := true }) }

/-- Settle a cycle's `now` gate; promises settle at most once. -/
def settleCycleGate (s : State) (cid : Nat) (out : Settled) : State :=
  let upd := fun (c : Cycle) =>
    match c.settled with
    | some _ => c
    | none => { c with settled := some out }
  { s with cycles := updateAssoc s.cycles cid upd }

/-- `this.#readyStates.now.refresh()`: allocate a fresh `now` gate, make
it current, and return its cycle identifier. -/
def refreshNow (s : State) : State × Nat :=
  let cid := s.nextCycleId
  ({ s with
      cycles := s.cycles ++ [(cid, { aborted := false, settled := none })],
      nowId := cid,
      nextCycleId := cid + 1 }, cid)

/-- The settlement state of a promise in the table. -/
def promSettled (s : State) (pid : Nat) : Option Settled :=
  match lookupLast s.promises pid with
  | some e => e.state
  | none => none

/-- Allocate a fresh pending promise. -/
def newPromise (s : State) : State × Nat :=
  let pid := s.nextPromId
  ({ s with
      promises := s.promises ++ [(pid, { state := none, reactions := [] })],
      nextPromId := pid + 1 }, pid)

/-- Allocate an already-settled promise (`Promise.resolve(...)`). -/
def newSettledPromise (s : State) (out : Settled) : State × Nat :=
  let pid := s.nextPromId
  ({ s with
      promises := s.promises ++ [(pid, { state := some out, reactions := [] })],
      nextPromId := pid + 1 }, pid)

/-- Settle a promise: a no-op when already settled, otherwise record the
outcome and enqueue one microtask per registered reaction, in
registration order. -/
def settlePromise (s : State) (pid : Nat) (out : Settled) : State :=
  match lookupLast s.promises pid with
  | none => s
  | some e =>
    match e.state with
    | some _ => s
    | none =>
      let proms := updateAssoc s.promises pid
        (fun _ => { state := some out, reactions := [] })
      let queued := e.reactions.map (fun r => { reaction := r, outcome := out })
      { s with promises := proms, tasks := s.tasks ++ queued }

/-- Register a reaction on a promise: stored while the promise is
pending, enqueued immediately when it is already settled. -/
def registerReaction (s : State) (pid : Nat) (r : Reaction) : State :=
  match lookupLast s.promises pid with
  | none => s
  | some e =>
    match e.state with
    | none =>
      let proms := updateAssoc s.promises pid
        (fun e0 => { e0 with reactions := e0.reactions ++ [r] })
      { s with promises := proms }
    | some out =>
      { s with tasks := s.tasks ++ [{ reaction := r, outcome := out }] }

/-- Register an abort listener on the controller generation current at
registration time. -/
def addAbortListener (s : State) (g : Nat) (l : AbortListener) : State :=
  { s with abortListeners := s.abortListeners ++ [(g, l)] }

/-- Run one abort listener (these run synchronously inside `abort()`). -/
def runAbortListener (s : State) (l : AbortListener) : State :=
  match l with
  | .promiseInputAbort cid wrapPid =>
      settlePromise (setCycleAborted s cid) wrapPid (.fulfilled (.js .undef))
  | .returnPromiseAbort retPid =>
      settlePromise s retPid (.fulfilled (.js (.boolV false)))

/-- `this.#abortController.abort()`: fire the listeners of generation `g`
in registration order. -/
def abortGeneration (s : State) (g : Nat) : State :=
  (s.abortListeners.filter (fun p => p.1 = g)).foldl
    (fun acc p => runAbortListener acc p.2) s

/-- Resolve the `live` gate (`live.state = true; live.resolve(this)`). -/
def resolveLiveGate (s : State) : State :=
  let stl :=
    match s.live.settled with
    | some o => some o
    | none => some (Settled.fulfilled .selfV)
  { s with live := { state := true, settled := stl } }

/-- Settle the `done` gate (at most once). -/
def settleDoneGate (s : State) (out : Settled) : State :=
  let stl :=
    match s.doneGate.settled with
    | some o => some o
    | none => some out
  { s with doneGate := { s.doneGate with settled := stl } }

/-- The `readyState` getter: `done` when the done gate fired, else `live`
when the live gate fired, else `waiting`. -/
def readyState (s : State) : ReadyState :=
  if s.doneGate.state then .done
  else if s.live.state then .live else .waiting

/-- The `ok` getter: `!!(status >= 200 && status < 299)`. -/
def ok (s : State) : Bool :=
  okOf s.status

/-- The `now()` method returns the promise of the `now` gate current at
call time; this is that gate's cycle identifier. -/
def nowGate (s : State) : Nat :=
  s.nowId

end State

/-- The statement order of the commit path of `directReplaceWith`, one
action per side-effecting statement: the field assignments, the
conditional invalidation of the concurrency abort controller, the gate
resolutions and the event dispatch, in source order. -/
inductive CommitAction where
  | setStatus
  | setStatusText
  | refillHeaders
  | setType
  | setRedirected
  | setUrl
  | setBody
  | setConcurrent
  | setPort
  | abortConcurrencyScope
  | resolveLive
  | resolveNow
  | emitReplaceEvent
  deriving DecidableEq, Repr

/-- The action order of one non-aborted `directReplaceWith` call on a
frozen frame `rf`: statuses, header refill, type, redirected, url, body,
concurrent, port; then, only for a non-concurrent frame, the concurrency
controller is aborted and recreated; then the live and now gates resolve
and the replace event fires. -/
def commitTrace (rf : ResponseFrame) : List CommitAction :=
  [.setStatus, .setStatusText, .refillHeaders, .setType, .setRedirected,
   .setUrl, .setBody, .setConcurrent, .setPort]
  ++ (if rf.concurrent then [] else [.abortConcurrencyScope])
  ++ [.resolveLive, .resolveNow, .emitReplaceEvent]

/-- The two input shapes of the modeled dispatch: an immediate value and
a pending (promise-wrapped) value identified by its promise id. -/
inductive BodyInput where
  | val (v : JSVal)
  | pending (pid : Nat)
  deriving DecidableEq, Repr

namespace State

/-- The state effect of the commit path of `directReplaceWith` for cycle
`cid` and frozen frame `rf`, following the statement order recorded by
`commitTrace`.  The headers object is cleared entry by entry and refilled
from the frame (its identity `headersId` is never reassigned). -/
def commitFrame (s : State) (cid : Nat) (rf : ResponseFrame) : State :=
  let s := { s with status := rf.status, statusText := rf.statusText }
  let s := { s with headers := clearHeaders s.headers ++ rf.headers }
  let s := { s with type := rf.type, redirected := rf.redirected, url := rf.url }
  let s := { s with body := rf.body, concurrent := rf.concurrent, port := rf.port }
  let s := if rf.concurrent then s else { s with concGen := s.concGen + 1 }
  let s := resolveLiveGate s
  let s := settleCycleGate s cid (.fulfilled (.frameV rf))
  { s with emitted := s.emitted ++ [rf] }

/-- `directReplaceWith(__frame, responseFrame)`: freeze the frame with
the recomputed `ok` and `bodyUsed`; when the passed cycle is already
aborted, only resolve its `now` gate with the frame and return;
otherwise commit on the passed cycle, or on a freshly refreshed one when
none was passed. -/
def directReplaceWith (s : State) (cidOpt : Option Nat) (rf0 : ResponseFrame) : State :=
  let rf := { rf0 with ok := okOf rf0.status, bodyUsed := true }
  match cidOpt with
  | some cid =>
    if s.cycleAborted cid then
      settleCycleGate s cid (.fulfilled (.frameV rf))
    else
      commitFrame s cid rf
  | none =>
    let (s, cid) := refreshNow s
    commitFrame s cid rf

/-- `wrapReplaceWith(frame, body, options)`: build the raw frame from the
body and options with the constant defaults of the source (`status` 200,
empty `statusText`, `type` "basic", `redirected` false, `url` null) and
hand it to `directReplaceWith`.  The `ok` and `bodyUsed` placeholders are
overwritten by the freeze step. -/
def wrapReplaceWith (s : State) (cidOpt : Option Nat) (body : JSVal)
    (options : FrameOptions) : State :=
  directReplaceWith s cidOpt
    { body := body,
      status := options.status.getD 200,
      statusText := options.statusText.getD "",
      headers := options.headers.getD [],
      type := "basic",
      redirected := false,
      url := none,
      concurrent := options.concurrent.getD false,
      port := none,
      ok := false,
      bodyUsed := false }

/-- The status validation of the options-processing block: a status
outside the inclusive range 200 to 599 throws. -/
def validateStatus (options : FrameOptions) : Except JSError FrameOptions :=
  match options.status with
  | none => .ok options
  | some st =>
    if st < 200 ∨ st > 599 then .error (.statusOutOfRange st)
    else .ok options

/-- `#extendLifecycle(promise)`: throws when the instance is already
done; otherwise records the promise as the current frame promise and
registers the then/catch pair that advances the ready state to done when
this promise is still current at settlement time. -/
def extendLifecycle (s : State) (pid : Nat) : State × Except JSError Unit :=
  if s.doneGate.state then (s, .error .alreadyDone)
  else
    let s := { s with currentFramePromise := some pid }
    (registerReaction s pid (.extendThen pid), .ok ())

/-- The private dispatch method (source: the hash-private `replaceWith`),
restricted to the pending-promise and immediate-value input shapes.  It
returns the promise the call hands back (the lifecycle wrapper for a
pending input, the completion promise built from the abort listener and
the frame's done promise otherwise), or the synchronously thrown error
together with the state mutated so far. -/
def replaceWithInternal (s : State) (cidOpt : Option Nat) (input : BodyInput)
    (options : FrameOptions) : State × Except JSError Nat :=
  -- const frame = __frame || this.#readyStates.now.refresh();
  let sc := match cidOpt with
    | some c => (s, c)
    | none => refreshNow s
  let s := sc.1
  let cid := sc.2
  match input with
  | .pending bodyPid =>
    -- wrapper promise handed to #extendLifecycle and returned
    let sw := newPromise s
    let s := sw.1
    let wrapPid := sw.2
    -- abort listener: frame.aborted = true; resolve();
    let s := addAbortListener s s.abortGen (.promiseInputAbort cid wrapPid)
    -- body.then(async (resolveData) => { await redispatch; resolve(); }).catch((e) => reject(e));
    let s := registerReaction s bodyPid (.bodyThen cid options wrapPid)
    let se := extendLifecycle s wrapPid
    match se.2 with
    | .error e => (se.1, .error e)
    | .ok _ => (se.1, .ok wrapPid)
  | .val v =>
    -- options processing (status range check) happens after the Promise branch
    match validateStatus options with
    | .error e => (s, .error e)
    | .ok options =>
      -- frame.donePromise = Promise.resolve(wrapReplaceWith(frame, body, options));
      let s := wrapReplaceWith s (some cid) v options
      let sd := newSettledPromise s (.fulfilled (.js .undef))
      let s := sd.1
      let donePid := sd.2
      -- #extendLifecycle(options.done === false ? new Promise(() => {}) : frame.donePromise);
      let sl := if options.done = some false then newPromise s else (s, donePid)
      let s := sl.1
      let lifecyclePid := sl.2
      let se := extendLifecycle s lifecyclePid
      match se.2 with
      | .error e => (se.1, .error e)
      | .ok _ =>
        let s := se.1
        -- return await new Promise((resolve, reject) => { signal abort: resolve(false);
        -- frame.donePromise.then(() => resolve(true)).catch(reject); });
        let sr := newPromise s
        let s := sr.1
        let retPid := sr.2
        let s := addAbortListener s s.abortGen (.returnPromiseAbort retPid)
        let s := registerReaction s donePid (.returnFromDone retPid)
        (s, .ok retPid)

/-- Run one defunctionalized reaction with the settlement outcome of the
promise it was registered on.  Each branch is the body of the
corresponding handler closure in the source. -/
def runReaction (s : State) (r : Reaction) (out : Settled) : State :=
  match r with
  | .extendThen pid =>
    -- promise.then((value) => { if current: done.state = true; done.resolve(value) })
    --        .catch((e) => { if current: done.state = true; done.reject(e) });
    if s.currentFramePromise = some pid then
      let s := { s with currentFramePromise := none }
      let s := { s with doneGate := { s.doneGate with state := true } }
      settleDoneGate s out
    else s
  | .bodyThen cid options wrapPid =>
    (match out with
     | .rejected e => settlePromise s wrapPid (.rejected e)
     | .fulfilled (.js v) =>
       -- await this.#replaceWith(frame, resolveData, ...args); then resolve();
       let sr := replaceWithInternal s (some cid) (.val v) options
       (match sr.2 with
        | .error e => settlePromise sr.1 wrapPid (.rejected e)
        | .ok retP => registerReaction sr.1 retP (.afterRedispatch wrapPid))
     | .fulfilled _ => s)
  | .afterRedispatch wrapPid =>
    (match out with
     | .fulfilled _ => settlePromise s wrapPid (.fulfilled (.js .undef))
     | .rejected e => settlePromise s wrapPid (.rejected e))
  | .returnFromDone retPid =>
    -- frame.donePromise.then(() => resolve(true)).catch(reject);
    (match out with
     | .fulfilled _ => settlePromise s retPid (.fulfilled (.js (.boolV true)))
     | .rejected e => settlePromise s retPid (.rejected e))
  | .publicAwait pubPid =>
    -- the async public replaceWith awaits the dispatch and returns undefined
    (match out with
     | .fulfilled _ => settlePromise s pubPid (.fulfilled (.js .undef))
     | .rejected e => settlePromise s pubPid (.rejected e))
  | .constructorCatch cid =>
    -- this.#replaceWith(frame, body, ...args).catch((e) => { frame.reject(e); });
    (match out with
     | .rejected e => settleCycleGate s cid (.rejected e)
     | .fulfilled _ => s)

/-- Run the first queued microtask, if any. -/
def stepTask (s : State) : State :=
  match s.tasks with
  | [] => s
  | t :: rest => runReaction { s with tasks := rest } t.reaction t.outcome

/-- Drain the microtask queue with the given fuel. -/
def runTasks (s : State) : Nat → State
  | 0 => s
  | n + 1 =>
    match s.tasks with
    | [] => s
    | _ => runTasks (stepTask s) n

/-- `disconnect(dispose = false)`: abort the current disconnect
controller - its `aborted` bit flips and its listeners fire
synchronously - and immediately replace the private field with a fresh,
never-aborted controller; with `dispose`, also abort and recreate the
concurrency controller.  `signalAborted` tracks the `aborted` bit of
the controller currently held by the private field: it is true only
between the two adjacent synchronous statements, so no suspended
continuation that resumes through the task queue can observe it. -/
def disconnect (s : State) (dispose : Bool) : State :=
  let g := s.abortGen
  let s := { s with signalAborted := true }
  let s := abortGeneration s g
  let s := { s with abortGen := g + 1, signalAborted := false }
  if dispose then { s with concGen := s.concGen + 1 } else s

/-- The public `replaceWith(body, ...args)`: throws when the ready state
is already done, otherwise disconnects the previous cycle and awaits the
private dispatch.  The async method body contains no return statement,
so on success the returned promise is a fresh promise that fulfills with
undefined when the dispatch promise fulfills (discarding its value) and
rejects with its rejection reason otherwise. -/
def replaceWith (s : State) (input : BodyInput) (options : FrameOptions) :
    State × Except JSError Nat :=
  if readyState s = .done then (s, .error .alreadyDone)
  else
    let s := disconnect s false
    let sr := replaceWithInternal s none input options
    match sr.2 with
    | .error e => (sr.1, .error e)
    | .ok pid =>
      let sp := newPromise sr.1
      (registerReaction sp.1 pid (.publicAwait sp.2), .ok sp.2)

end State

/-- The initial private fields of a fresh instance, with the ready-state
gates unresolved and two pre-allocated external promises (ids 0 and 1)
usable as pending inputs by scenario drivers. -/
def emptyState : State :=
  { body := .nullV,
    status := 200,
    statusText := "",
    headersId := 0,
    headers := [],
    type := "basic",
    redirected := false,
    url := none,
    concurrent := false,
    port := none,
    live := { state := false, settled := none },
    doneGate := { state := false, settled := none },
    nowId := 0,
    cycles := [],
    nextCycleId := 0,
    promises := [(0, { state := none, reactions := [] }),
                 (1, { state := none, reactions := [] })],
    nextPromId := 2,
    currentFramePromise := none,
    abortGen := 0,
    signalAborted := false,
    abortListeners := [],
    concGen := 0,
    tasks := [],
    emitted := [] }

/-- The first pre-allocated external promise. -/
def extP1 : Nat := 0

/-- The second pre-allocated external promise. -/
def extP2 : Nat := 1

/-- The constructor: set up the ready-state registry (the refresh closure
allocates the first `now` gate), run the private dispatch against that
gate, and route a synchronous throw or an asynchronous rejection of the
dispatch promise into that gate's rejection. -/
def construct (input : BodyInput) (options : FrameOptions) : State :=
  let sc := State.refreshNow emptyState
  let s := sc.1
  let cid0 := sc.2
  let sr := State.replaceWithInternal s (some cid0) input options
  match sr.2 with
  | .error e => State.settleCycleGate sr.1 cid0 (.rejected e)
  | .ok pid => State.registerReaction sr.1 pid (.constructorCatch cid0)

/-- One result of `gen.next()`: the awaited value and the iterator done
flag. -/
structure GenStep where
  value : JSVal
  isDone : Bool
  deriving DecidableEq, Repr

/-- One dispatch performed by the generator driver: the recursive call to
the private dispatch with this value and these done and concurrent
options, committing exactly one frame. -/
structure GenCommit where
  value : JSVal
  doneFlag : Bool
  concurrent : Option Bool
  deriving DecidableEq, Repr

/-- The while loop of `execReplaceWithGenerator`.  Both abort checks
re-read `this.#abortController.signal.aborted` - the `aborted` bit of
the controller held by the private field at that moment, not a signal
captured when the cycle started.  The loop is therefore parameterized by
the observation streams: `whileObs k` is the value the while-condition
check reads after `k` completed pulls, `commitObs k` the value the
post-pull check reads after the k-th pull.  While the previous result is
not done and the read is false, the loop pulls the next result and
dispatches its value unless the post-pull read is true.  The done option
handed to each dispatch is the pulled done flag, forced to false when
the top-level options said `done: false`. -/
def genLoop (steps : List GenStep) (whileObs commitObs : Nat → Bool)
    (options : FrameOptions) (prevDone : Bool) (pulls : Nat) : List GenCommit :=
  match steps with
  | [] => []
  | st :: rest =>
    if prevDone || whileObs pulls then []
    else
      (if commitObs (pulls + 1) then []
       else [{ value := st.value,
               doneFlag := (match options.done with
                            | some false => false
                            | _ => st.isDone),
               concurrent := options.concurrent }])
      ++ genLoop rest whileObs commitObs options st.isDone (pulls + 1)

/-- `execReplaceWithGenerator(frame, gen, options)`: pull the first
result and dispatch it with the full options (the spread lets an
explicit `done` option override the pulled flag), then run the loop. -/
def execReplaceWithGenerator (steps : List GenStep) (whileObs commitObs : Nat → Bool)
    (options : FrameOptions) : List GenCommit :=
  match steps with
  | [] => []
  | first :: rest =>
    { value := first.value,
      doneFlag := (match options.done with
                   | some b => b
                   | none => first.isDone),
      concurrent := options.concurrent }
    :: genLoop rest whileObs commitObs options first.isDone 1

/-- Number of pulls the loop performs, counting the initial one. -/
def genLoopPulls (steps : List GenStep) (whileObs : Nat → Bool)
    (prevDone : Bool) (pulls : Nat) : Nat :=
  match steps with
  | [] => pulls
  | st :: rest =>
    if prevDone || whileObs pulls then pulls
    else genLoopPulls rest whileObs st.isDone (pulls + 1)

/-- Total number of pulls `execReplaceWithGenerator` performs on the
generator. -/
def execPulls (steps : List GenStep) (whileObs : Nat → Bool) : Nat :=
  match steps with
  | [] => 0
  | first :: rest => genLoopPulls rest whileObs first.isDone 1

/-- The `next()` result stream of a generator that yields the given
values and then finishes returning `ret` (for a plain generator the
return value is undefined). -/
def genResults (yields : List JSVal) (ret : JSVal) : List GenStep :=
  yields.map (fun v => { value := v, isDone := false }) ++ [{ value := ret, isDone := true }]

/-! Scenario definitions shared by the claim theorems.  Each scenario is
a closed executable run of the engine; the driver settles the external
promises and drains the microtask queue with ample fuel. -/

/-- A live instance constructed from an immediate value with
`done: false`, with its startup microtasks drained: the base state for
the replacement scenarios.  Promise ids allocated so far: 2 is the first
frame's done promise, 3 its never-resolving lifecycle promise, 4 its
completion promise; cycle 0 is the constructor's now gate. -/
def liveOpenInstance : State :=
  State.runTasks (construct (.val (.strV "init")) { done := some false }) 8

/-- The state right after `replaceWith` is called with a pending input
(the external promise `extP1`) on the live instance: cycle 1 is the new
now gate, promise 5 the lifecycle wrapper, promise 6 the promise the
public `replaceWith` returned. -/
def pendingCycleState : State :=
  (State.replaceWith liveOpenInstance (.pending extP1) {}).1

/-- A second `replaceWith` with an immediate value `v2` issued while the
pending cycle is still unresolved: cycle 2 is its now gate, promise 7
its done promise, promise 8 its completion promise, promise 9 the
promise its public call returned. -/
def abandonMid (v2 : JSVal) : State × Except JSError Nat :=
  State.replaceWith pendingCycleState (.val v2) {}

/-- The abandonment scenario run to quiescence: after the second call
commits and the instance settles, the abandoned pending input finally
resolves to `v1`. -/
def abandonRun (v1 v2 : JSVal) : State :=
  State.runTasks
    (State.settlePromise (State.runTasks (abandonMid v2).1 32) extP1 (.fulfilled (.js v1))) 32

/-- The pending cycle's input rejects while the cycle is still the
current one. -/
def rejectedRun (e : JSError) : State :=
  State.runTasks (State.settlePromise pendingCycleState extP1 (.rejected e)) 32

/-- A constructor cycle fed by a pending input that rejects. -/
def constructPendingReject (e : JSError) : State :=
  State.runTasks (State.settlePromise (construct (.pending extP1) {}) extP1 (.rejected e)) 32

/-- The abandoned pending cycle, drained, before its input settles. -/
def abandonedCycleBase : State :=
  State.runTasks (abandonMid (.strV "c")).1 32

/-- The abandoned pending cycle whose input then rejects. -/
def abandonedRejectRun (e : JSError) : State :=
  State.runTasks (State.settlePromise abandonedCycleBase extP1 (.rejected e)) 32

/-- An instance whose ready state has reached done (immediate
construction with default options, one tick later). -/
def doneInstance (v : JSVal) : State :=
  State.runTasks (construct (.val v) {}) 8

/-- A `replaceWith` call carrying an out-of-range status, issued on the
live instance while the pending cycle is in flight. -/
def badStatusCall : State × Except JSError Nat :=
  State.replaceWith pendingCycleState (.val (.strV "x")) { status := some 700 }

/-- The failing-status scenario drained to quiescence. -/
def badStatusDrained : State :=
  State.runTasks badStatusCall.1 32

/-- A `replaceWith` call with an out-of-range status but a pending
(promise) body, issued on the live instance: the Promise branch of the
dispatch returns before the options-processing block runs, so the call
itself raises no error.  Cycle 1 is its now gate, promise 5 its
lifecycle wrapper, promise 6 the promise the public call returned. -/
def pendingBadStatusCall : State × Except JSError Nat :=
  State.replaceWith liveOpenInstance (.pending extP1) { status := some 700 }

/-- The pending bad-status cycle once its input resolves: the range
error is raised by the re-dispatch and surfaces as the cycle's
failure. -/
def pendingBadStatusResolved : State :=
  State.runTasks
    (State.settlePromise pendingBadStatusCall.1 extP1 (.fulfilled (.js (.strV "v")))) 32

/-- The pending bad-status cycle abandoned by a newer `replaceWith`
before its input resolves: the range error raised at resolution is
discarded on the already-settled wrapper. -/
def pendingBadStatusAbandoned : State :=
  State.runTasks
    (State.settlePromise
      (State.runTasks (State.replaceWith pendingBadStatusCall.1 (.val (.strV "w")) {}).1 32)
      extP1 (.fulfilled (.js (.strV "v")))) 32

/-- The instance constructed with status 299, drained. -/
def status299Instance : State :=
  State.runTasks (construct (.val (.strV "x")) { status := some 299 }) 8

/-- A concrete non-concurrent frozen frame. -/
def c7Frame : ResponseFrame :=
  { body := .strV "b", status := 200, statusText := "", headers := [],
    type := "basic", redirected := false, url := none, concurrent := false,
    port := none, ok := true, bodyUsed := true }

/-- A concrete frame carrying one header entry. -/
def c8Frame : ResponseFrame :=
  { body := .strV "b", status := 201, statusText := "Created",
    headers := [("content-type", "text/plain")], type := "basic",
    redirected := false, url := none, concurrent := false, port := none,
    ok := true, bodyUsed := true }

/-- The frozen frame an immediate-value dispatch with empty options
produces: the body with all source defaults (status 200, empty status
text, empty headers, basic type) and the recomputed `ok` and
`bodyUsed`. -/
def defaultFrame (v : JSVal) : ResponseFrame :=
  { body := v, status := 200, statusText := "", headers := [],
    type := "basic", redirected := false, url := none, concurrent := false,
    port := none, ok := true, bodyUsed := true }

/-- The `live` gate of an instance that has committed: state flag set,
resolved with the instance itself. -/
def liveGateResolved : GateState :=
  { state := true, settled := some (.fulfilled .selfV) }

/-- The `done` gate of an instance whose lifecycle promise fulfilled
with undefined. -/
def doneGateResolvedUndef : GateState :=
  { state := true, settled := some (.fulfilled (.js .undef)) }

/-- The cycle table of the abandonment scenario once quiescent: the
constructor's gate resolved with the initial frame, the abandoned
pending cycle's gate still pending with its aborted mark, and the
superseding cycle's gate resolved with its frame. -/
def abandonedCyclesView : List (Nat × Cycle) :=
  [(0, { aborted := false,
         settled := some (.fulfilled (.frameV (defaultFrame (.strV "init")))) }),
   (1, { aborted := true, settled := none }),
   (2, { aborted := false,
         settled := some (.fulfilled (.frameV (defaultFrame (.strV "c")))) })]

/-- The frame committed by one generator dispatch of value and options
as built by the loop. -/
def genCommitFrame (c : GenCommit) : ResponseFrame :=
  { body := c.value, status := 200, statusText := "", headers := [],
    type := "basic", redirected := false, url := none,
    concurrent := c.concurrent.getD false, port := none, ok := true,
    bodyUsed := true }

/-! General lemmas about the embedding. -/

/-- Folding the per-name deletion over a snapshot list `l` empties the
accumulator whenever every accumulator name occurs in the snapshot. -/
theorem foldl_headersDelete_eq_nil (l : List (String × String)) :
    ∀ acc : List (String × String),
      (∀ p ∈ acc, p.1 ∈ l.map Prod.fst) →
      l.foldl (fun a p => headersDelete a p.1) acc = [] := by
  induction l with
  | nil =>
    intro acc h
    cases acc with
    | nil => rfl
    | cons q qs => simpa using h q (by simp)
  | cons a l ih =>
    intro acc h
    simp only [List.foldl_cons]
    apply ih
    intro p hp
    have hmem : p ∈ acc ∧ ¬p.1 = a.1 := by
      simpa [headersDelete, List.mem_filter] using hp
    have := h p hmem.1
    simp only [List.map_cons, List.mem_cons] at this
    exact this.resolve_left hmem.2

/-- The header-clearing loop of `directReplaceWith` empties the headers
object. -/
theorem clearHeaders_eq_nil (hs : List (String × String)) :
    clearHeaders hs = [] := by
  apply foldl_headersDelete_eq_nil
  intro p hp
  exact List.mem_map_of_mem Prod.fst hp

namespace State

/-- `settlePromise` only touches the promise table and the task queue. -/
theorem settlePromise_concGen (s : State) (pid : Nat) (out : Settled) :
    (settlePromise s pid out).concGen = s.concGen := by
  unfold settlePromise
  split
  · rfl
  · split <;> rfl

/-- `setCycleAborted` only touches the cycle table. -/
theorem setCycleAborted_concGen (s : State) (cid : Nat) :
    (setCycleAborted s cid).concGen = s.concGen := rfl

/-- Abort listeners never touch the concurrency controller. -/
theorem runAbortListener_concGen (s : State) (l : AbortListener) :
    (runAbortListener s l).concGen = s.concGen := by
  cases l with
  | promiseInputAbort cid wrapPid =>
    simp [runAbortListener, settlePromise_concGen, setCycleAborted_concGen]
  | returnPromiseAbort retPid =>
    simp [runAbortListener, settlePromise_concGen]

/-- Firing any list of abort listeners preserves the concurrency
controller generation. -/
theorem foldl_runAbortListener_concGen (l : List (Nat × AbortListener)) :
    ∀ s : State, (l.foldl (fun acc p => runAbortListener acc p.2) s).concGen = s.concGen := by
  induction l with
  | nil => intro s; rfl
  | cons a l ih =>
    intro s
    simp only [List.foldl_cons]
    rw [ih, runAbortListener_concGen]

/-- `abortGeneration` preserves the concurrency controller generation. -/
theorem abortGeneration_concGen (s : State) (g : Nat) :
    (abortGeneration s g).concGen = s.concGen := by
  unfold abortGeneration
  exact foldl_runAbortListener_concGen _ s

/-- The most recently appended entry wins the last-match lookup. -/
theorem lookupLast_append_last {α : Type} (l : List (Nat × α)) (k : Nat) (v : α) :
    lookupLast (l ++ [(k, v)]) k = some v := by
  simp [lookupLast, List.foldl_append]

end State

/-! Claim theorems. -/

/-- C1: the claim states that `ok` is recomputed on every commit as
status within the inclusive range 200 to 299.  The source computes
`status >= 200 && status < 299` in both the `ok` getter and the freeze
step, so at status 299 the code yields `ok = false` while the claim
requires `true`: constructing with status 299 yields a committed frame
and an instance whose `ok` is false. -/
theorem c1_ok_excludes_299 :
    okOf 299 = false ∧ okOf 298 = true ∧ okOf 200 = true ∧
    status299Instance.status = 299 ∧
    State.ok status299Instance = false ∧
    status299Instance.emitted.map ResponseFrame.ok = [false] ∧
    State.readyState status299Instance = .done :=
  ⟨rfl, rfl, rfl, rfl, rfl, rfl, rfl⟩

/-- C2: the claim states that for replace calls R1 then R2 with R2
issued before R1 completes, R1's returned promise resolves to false and
R2's to true.  In the code the public `replaceWith` contains no return
statement, so both returned promises (ids 6 and 9) fulfill with
undefined; for a pending input even the internal dispatch promise (id 5)
fulfills with undefined, and only the completion promise of the
immediate second call (id 8) carries the boolean true.  The remaining
parts of the claim hold: R1's cycle is marked aborted by the very call
that starts R2, the final committed fields are R2's, and R1's late
resolution commits nothing (the emitted frames stay those of the initial
construction and of R2). -/
theorem c2_replaceWith_promise_values :
    (State.replaceWith liveOpenInstance (.pending extP1) {}).2 = .ok 6 ∧
    (abandonMid (.strV "c")).2 = .ok 9 ∧
    State.cycleAborted (abandonMid (.strV "c")).1 1 = true ∧
    (abandonMid (.strV "c")).1.body = .strV "c" ∧
    State.promSettled (abandonRun (.strV "b") (.strV "c")) 6 =
      some (.fulfilled (.js .undef)) ∧
    State.promSettled (abandonRun (.strV "b") (.strV "c")) 9 =
      some (.fulfilled (.js .undef)) ∧
    State.promSettled (abandonRun (.strV "b") (.strV "c")) 5 =
      some (.fulfilled (.js .undef)) ∧
    State.promSettled (abandonRun (.strV "b") (.strV "c")) 8 =
      some (.fulfilled (.js (.boolV true))) ∧
    (abandonRun (.strV "b") (.strV "c")).body = .strV "c" ∧
    (abandonRun (.strV "b") (.strV "c")).emitted.map ResponseFrame.body =
      [.strV "init", .strV "c"] :=
  ⟨rfl, rfl, rfl, rfl, rfl, rfl, rfl, rfl, rfl, rfl⟩

/-- C3: `now()` called during cycle A (the pending cycle, gate 1)
returns gate 1; generally, a `directReplaceWith` against an already
abandoned cycle does nothing but settle that cycle's own gate with the
frame it reached (so a late commit of an abandoned cycle can only feed
its own `now` snapshot, never another cycle's); and in the scenario
where A is abandoned by cycle B before resolving, gate 1 settles with
the frame built from A's value "vA", not with B's frame, while the
instance itself holds B's value "vB". -/
theorem c3_now_resolves_to_call_time_cycle :
    (∀ (s : State) (cid : Nat) (rf0 : ResponseFrame),
      State.cycleAborted s cid = true →
      State.directReplaceWith s (some cid) rf0 =
        State.settleCycleGate s cid
          (.fulfilled (.frameV { rf0 with ok := okOf rf0.status, bodyUsed := true }))) ∧
    State.nowGate pendingCycleState = 1 ∧
    State.cycleAborted (abandonRun (.strV "vA") (.strV "vB")) 1 = true ∧
    State.cycleSettled (abandonRun (.strV "vA") (.strV "vB")) 1 =
      some (.fulfilled (.frameV (defaultFrame (.strV "vA")))) ∧
    ¬ State.cycleSettled (abandonRun (.strV "vA") (.strV "vB")) 1 =
      some (.fulfilled (.frameV (defaultFrame (.strV "vB")))) ∧
    (abandonRun (.strV "vA") (.strV "vB")).body = .strV "vB" := by
  refine ⟨?_, rfl, rfl, rfl, by decide, rfl⟩
  intro s cid rf0 h
  simp [State.directReplaceWith, h]

/-- Witness for C3: the general conjunct applied to the abandoned cycle
of the scenario with a concrete late frame. -/
theorem c3_now_witness :
    State.directReplaceWith (abandonMid (.strV "c")).1 (some 1) (defaultFrame (.strV "w")) =
      State.settleCycleGate (abandonMid (.strV "c")).1 1
        (.fulfilled (.frameV { defaultFrame (.strV "w") with ok := okOf (defaultFrame (.strV "w")).status, bodyUsed := true })) :=
  c3_now_resolves_to_call_time_cycle.1 (abandonMid (.strV "c")).1 1
    (defaultFrame (.strV "w")) (by decide)

/-- Status validation rejects every status outside the inclusive range
200 to 599 with the range error naming that status. -/
theorem validateStatus_out_of_range (st : Int) (h : st < 200 ∨ st > 599) :
    State.validateStatus { status := some st } = .error (.statusOutOfRange st) := by
  unfold State.validateStatus
  exact if_pos h

/-- An immediate-value dispatch whose options fail validation mutates
nothing beyond the now-gate refresh: it returns the refreshed state and
the validation error, before any commit. -/
theorem replaceWithInternal_val_invalid (s : State) (w : JSVal)
    (options : FrameOptions) (e : JSError)
    (hv : State.validateStatus options = .error e) :
    State.replaceWithInternal s none (.val w) options =
      ((State.refreshNow s).1, .error e) := by
  unfold State.replaceWithInternal
  simp only [hv]

/-- Counterexample for C4: the claim states that a status option
outside the inclusive range 200 to 599 makes `replaceWith` throw the
range error synchronously/immediately; for a pending (promise) body the
Promise branch of the dispatch returns before the options-processing
block, so the call raises no error at all - it hands back the cycle's
promise (id 6). -/
theorem c4_pending_status_not_immediate :
    pendingBadStatusCall.2 = .ok 6 ∧
    ¬ pendingBadStatusCall.2 = .error (.statusOutOfRange 700) := by
  refine ⟨rfl, fun hc => ?_⟩
  rw [show pendingBadStatusCall.2 = Except.ok 6 from rfl] at hc
  exact Except.noConfusion hc

/-- C4 amended: replacing an already done instance fails with the
already-done error and returns the state unchanged, for immediate and
pending inputs alike; a status outside the inclusive range 200 to 599
fails validation with the range error for every such status; a failing
immediate `replaceWith` on a live instance yields the range error
synchronously and commits no frame (fields and emitted frames
untouched); a failing construction commits no frame, stays in the
waiting state and rejects its now gate with the range error.  For a
pending body the dispatch returns before validation: the call itself
raises no error, the range error surfaces only when the input resolves,
as the cycle's failure (rejecting the call's promise and the done gate,
still committing no frame), and is discarded entirely when the cycle
was abandoned first. -/
theorem c4_protocol_violations (v w : JSVal) (st : Int) (h : st < 200 ∨ st > 599) :
    State.replaceWith (doneInstance v) (.val w) {} = (doneInstance v, .error .alreadyDone) ∧
    State.replaceWith (doneInstance v) (.pending extP1) {} =
      (doneInstance v, .error .alreadyDone) ∧
    State.validateStatus { status := some st } = .error (.statusOutOfRange st) ∧
    (∀ s : State, State.replaceWithInternal s none (.val w) { status := some st } =
      ((State.refreshNow s).1, .error (.statusOutOfRange st))) ∧
    (State.replaceWith liveOpenInstance (.val w) { status := some 999 }).2 =
      .error (.statusOutOfRange 999) ∧
    (State.replaceWith liveOpenInstance (.val w) { status := some 999 }).1.body =
      .strV "init" ∧
    (State.replaceWith liveOpenInstance (.val w) { status := some 999 }).1.status = 200 ∧
    (State.replaceWith liveOpenInstance (.val w) { status := some 999 }).1.emitted.map
      ResponseFrame.body = [.strV "init"] ∧
    (construct (.val w) { status := some 150 }).emitted = [] ∧
    State.readyState (construct (.val w) { status := some 150 }) = .waiting ∧
    State.cycleSettled (construct (.val w) { status := some 150 }) 0 =
      some (.rejected (.statusOutOfRange 150)) ∧
    pendingBadStatusCall.2 = .ok 6 ∧
    State.promSettled pendingBadStatusResolved 6 =
      some (.rejected (.statusOutOfRange 700)) ∧
    pendingBadStatusResolved.doneGate.state = true ∧
    pendingBadStatusResolved.doneGate.settled =
      some (.rejected (.statusOutOfRange 700)) ∧
    pendingBadStatusResolved.body = .strV "init" ∧
    pendingBadStatusResolved.emitted.map ResponseFrame.body = [.strV "init"] ∧
    State.promSettled pendingBadStatusAbandoned 6 = some (.fulfilled (.js .undef)) ∧
    pendingBadStatusAbandoned.body = .strV "w" ∧
    pendingBadStatusAbandoned.emitted.map ResponseFrame.body =
      [.strV "init", .strV "w"] := by
  refine ⟨rfl, rfl, validateStatus_out_of_range st h, ?_, rfl, rfl, rfl, rfl, rfl, rfl,
    rfl, rfl, rfl, rfl, rfl, rfl, rfl, rfl, rfl, rfl⟩
  intro s
  exact replaceWithInternal_val_invalid s w _ _ (validateStatus_out_of_range st h)

/-- C4 witness: the theorem applied at concrete inputs, with status 700
outside the range. -/
theorem c4_protocol_violations_witness :
    State.replaceWith (doneInstance (.strV "a")) (.val (.strV "b")) {} =
      (doneInstance (.strV "a"), .error .alreadyDone) :=
  (c4_protocol_violations (.strV "a") (.strV "b") 700 (by decide)).1

/-- C7 counterexample: the claim states that a non-concurrent commit
invalidates the concurrency scope before installing the new body; in the
commit sequence of `directReplaceWith` the concurrency-scope abort comes
after the body installation. -/
theorem c7_abort_not_before_body :
    ¬ ((commitTrace c7Frame).indexOf CommitAction.abortConcurrencyScope
        < (commitTrace c7Frame).indexOf CommitAction.setBody) := by
  decide

/-- C7 amended: a non-concurrent commit invalidates the concurrency
scope (generation bump) during the commit, after installing the new body
and before the gates resolve and the replace event fires; a commit with
`concurrent: true` leaves the scope untouched; mere superseding
(`disconnect()` without dispose, as run by every `replaceWith`) never
touches the scope; `disconnect(true)` invalidates it. -/
theorem c7_concurrency_scope_rules (s : State) (rf : ResponseFrame) :
    (State.directReplaceWith s none { rf with concurrent := false }).concGen =
      s.concGen + 1 ∧
    (State.directReplaceWith s none { rf with concurrent := true }).concGen =
      s.concGen ∧
    (State.disconnect s false).concGen = s.concGen ∧
    (State.disconnect s true).concGen = s.concGen + 1 ∧
    commitTrace { rf with concurrent := false } =
      [.setStatus, .setStatusText, .refillHeaders, .setType, .setRedirected,
       .setUrl, .setBody, .setConcurrent, .setPort, .abortConcurrencyScope,
       .resolveLive, .resolveNow, .emitReplaceEvent] ∧
    CommitAction.abortConcurrencyScope ∉ commitTrace { rf with concurrent := true } := by
  refine ⟨?_, ?_, ?_, ?_, ?_, ?_⟩
  · simp [State.directReplaceWith, State.commitFrame, State.refreshNow,
      State.resolveLiveGate, State.settleCycleGate]
  · simp [State.directReplaceWith, State.commitFrame, State.refreshNow,
      State.resolveLiveGate, State.settleCycleGate]
  · simp [State.disconnect, State.abortGeneration_concGen]
  · simp [State.disconnect, State.abortGeneration_concGen]
  · simp [commitTrace]
  · simp [commitTrace]

/-- C5: a rejecting pending input fails its cycle: the promise returned
by `replaceWith` (id 6) rejects with the same error and the done gate
rejects with it too; a rejecting constructor input rejects the
constructor's now gate (cycle 0) and the done gate.  When the cycle was
already abandoned by a newer `replaceWith`, the late rejection is
discarded: the returned promise keeps its abandonment fulfillment and
every instance-visible component (fields, gates, emitted frames, cycle
table) of the run in which the rejection arrives equals that of the run
in which the input never settles. -/
theorem c5_production_failure (e : JSError) :
    State.promSettled (rejectedRun e) 6 = some (.rejected e) ∧
    (rejectedRun e).doneGate.state = true ∧
    (rejectedRun e).doneGate.settled = some (.rejected e) ∧
    State.cycleSettled (constructPendingReject e) 0 = some (.rejected e) ∧
    (constructPendingReject e).doneGate.settled = some (.rejected e) ∧
    State.promSettled (abandonedRejectRun (.external 7)) 6 = some (.fulfilled (.js .undef)) ∧
    (abandonedRejectRun (.external 7)).body = .strV "c" ∧
    abandonedCycleBase.body = .strV "c" ∧
    (abandonedRejectRun (.external 7)).status = 200 ∧
    abandonedCycleBase.status = 200 ∧
    (abandonedRejectRun (.external 7)).headers = [] ∧
    abandonedCycleBase.headers = [] ∧
    (abandonedRejectRun (.external 7)).live = liveGateResolved ∧
    abandonedCycleBase.live = liveGateResolved ∧
    (abandonedRejectRun (.external 7)).doneGate = doneGateResolvedUndef ∧
    abandonedCycleBase.doneGate = doneGateResolvedUndef ∧
    (abandonedRejectRun (.external 7)).emitted.map ResponseFrame.body =
      [.strV "init", .strV "c"] ∧
    abandonedCycleBase.emitted.map ResponseFrame.body =
      [.strV "init", .strV "c"] ∧
    (abandonedRejectRun (.external 7)).cycles = abandonedCyclesView ∧
    abandonedCycleBase.cycles = abandonedCyclesView :=
  ⟨rfl, rfl, rfl, rfl, rfl, rfl, rfl, rfl, rfl, rfl, rfl, rfl, rfl, rfl, rfl, rfl,
   rfl, rfl, rfl, rfl⟩

/-- C6: constructing from an immediate value commits one frame
synchronously (body the given value, status 200), the ready state is
live when the constructor returns, it is done after the first microtask,
and with `done: false` the instance is still live once all startup
microtasks have run. -/
theorem c6_immediate_construction (v : JSVal) :
    (construct (.val v) {}).body = v ∧
    (construct (.val v) {}).status = 200 ∧
    State.readyState (construct (.val v) {}) = .live ∧
    (construct (.val v) {}).emitted = [defaultFrame v] ∧
    State.readyState (State.stepTask (construct (.val v) {})) = .done ∧
    State.readyState (State.runTasks (construct (.val v) { done := some false }) 8) = .live ∧
    (State.runTasks (construct (.val v) { done := some false }) 8).body = v :=
  ⟨rfl, rfl, rfl, rfl, rfl, rfl, rfl⟩

/-- C8: on every commit the headers object keeps its identity (the
reference is never reassigned, in particular also on the aborted early
return), and a commit leaves its entries exactly those of the committed
frame: the clearing loop empties the object and the refill appends the
frame's entries. -/
theorem c8_headers_cleared_and_refilled (s : State) (rf : ResponseFrame) :
    (State.directReplaceWith s none rf).headersId = s.headersId ∧
    (State.directReplaceWith s none rf).headers = rf.headers ∧
    (∀ cid, (State.directReplaceWith s (some cid) rf).headersId = s.headersId) ∧
    (∀ cid, State.cycleAborted s cid = false →
      (State.directReplaceWith s (some cid) rf).headers = rf.headers) := by
  refine ⟨?_, ?_, ?_, ?_⟩
  · simp only [State.directReplaceWith, State.commitFrame, State.refreshNow,
      State.resolveLiveGate, State.settleCycleGate]
    split <;> rfl
  · simp only [State.directReplaceWith, State.commitFrame, State.refreshNow,
      State.resolveLiveGate, State.settleCycleGate, clearHeaders_eq_nil,
      List.nil_append]
    split <;> rfl
  · intro cid
    by_cases hab : State.cycleAborted s cid
    · simp only [State.directReplaceWith, State.settleCycleGate, hab, ite_true]
    · simp only [State.directReplaceWith, State.commitFrame, State.settleCycleGate,
        State.resolveLiveGate, hab, Bool.not_eq_true, ite_false, Bool.false_eq_true]
      split <;> rfl
  · intro cid hab
    simp only [State.directReplaceWith, State.commitFrame, State.settleCycleGate,
      State.resolveLiveGate, hab, clearHeaders_eq_nil, List.nil_append,
      Bool.false_eq_true, ite_false]
    split <;> rfl

/-- C8 witness: a commit on a fresh non-aborted cycle refills the
headers with the frame's entries. -/
theorem c8_headers_witness :
    (State.directReplaceWith emptyState (some 0) c8Frame).headers = c8Frame.headers :=
  (c8_headers_cleared_and_refilled emptyState c8Frame).2.2.2 0 (by decide)

/-- The loop of the generator driver on a stream of yields followed by
the terminal result, when every abort-check read yields false: one
dispatch per pull, in order, with the done flag of the terminal pull. -/
theorem genLoop_yields (ret : JSVal) :
    ∀ (ys : List JSVal) (pulls : Nat),
      genLoop (ys.map (fun v => { value := v, isDone := false }) ++
        [{ value := ret, isDone := true }]) (fun _ => false) (fun _ => false)
        {} false pulls =
      ys.map (fun v => { value := v, doneFlag := false, concurrent := none }) ++
        [{ value := ret, doneFlag := true, concurrent := none }] := by
  intro ys
  induction ys with
  | nil => intro pulls; rfl
  | cons y ys ih =>
    intro pulls
    simp only [List.map_cons, List.cons_append, genLoop, Bool.or_false,
      if_false, Bool.false_eq_true, ite_false, List.append_eq, List.nil_append]
    rw [ih (pulls + 1)]

/-- The loop's pull count on a stream of yields followed by the
terminal result, when every while-condition read yields false: the
whole stream is pulled. -/
theorem genLoopPulls_const_false (ret : JSVal) :
    ∀ (ys : List JSVal) (pulls : Nat),
      genLoopPulls (ys.map (fun v => { value := v, isDone := false }) ++
        [{ value := ret, isDone := true }]) (fun _ => false) false pulls =
      pulls + ys.length + 1 := by
  intro ys
  induction ys with
  | nil => intro pulls; rfl
  | cons y ys ih =>
    intro pulls
    simp only [List.map_cons, List.cons_append, genLoopPulls, Bool.or_false,
      if_false, Bool.false_eq_true, ite_false, List.append_eq, List.length_cons]
    rw [ih (pulls + 1)]
    omega

/-- When every while-condition read yields false, the driver pulls a
yields-then-return generator to exhaustion: one pull per yield plus the
terminal pull, however early the cycle was abandoned. -/
theorem execPulls_const_false (yields : List JSVal) (ret : JSVal) :
    execPulls (genResults yields ret) (fun _ => false) = yields.length + 1 := by
  cases yields with
  | nil => rfl
  | cons y ys =>
    simp only [genResults, List.map_cons, List.cons_append, execPulls,
      List.length_cons]
    rw [genLoopPulls_const_false ret ys 1]
    omega

/-- Each dispatch of the generator driver commits exactly one frame: the
refresh-then-commit path appends exactly one emitted frame carrying the
dispatched value. -/
theorem wrapReplaceWith_commits_one_frame (s : State) (c : GenCommit) :
    (State.wrapReplaceWith (State.refreshNow s).1 (some (State.refreshNow s).2) c.value
      { done := some c.doneFlag, concurrent := c.concurrent }).emitted =
      s.emitted ++ [genCommitFrame c] := by
  rcases c with ⟨cv, cd, cc⟩
  have hok : okOf 200 = true := by decide
  cases cc with
  | none =>
    simp [State.wrapReplaceWith, State.directReplaceWith, State.refreshNow,
      State.cycleAborted, State.lookupLast_append_last, State.commitFrame,
      State.resolveLiveGate, State.settleCycleGate, genCommitFrame, hok]
  | some b =>
    cases b <;>
      simp [State.wrapReplaceWith, State.directReplaceWith, State.refreshNow,
        State.cycleAborted, State.lookupLast_append_last, State.commitFrame,
        State.resolveLiveGate, State.settleCycleGate, genCommitFrame, hok]

/-- Claim C9 states that the dispatcher checks the cycle's abandonment
signal between pulls so no further values are requested once the cycle
is abandoned.  The loop's two checks re-read
`this.#abortController.signal.aborted` from the private field, and
`disconnect` - the only way a cycle is abandoned - replaces that field
with a fresh, never-aborted controller immediately after aborting the
old one, within one synchronous step: every state a resuming
continuation can observe carries `signalAborted = false` (after every
disconnect, at construction, and right after a superseding
`replaceWith`).  With every read false, the loop pulls a
yields-then-return generator to exhaustion and dispatches one frame per
pull in production order however early the cycle was abandoned - for
the two-yield generator abandoned before any pull, three pulls happen
where the claim allows at most one - and each dispatch still commits
one frame on the instance (its fresh now-gate cycle is never the
aborted one). -/
theorem c9_abandonment_check_dead (s : State) (d : Bool)
    (yields : List JSVal) (ret : JSVal) (c : GenCommit) :
    (State.disconnect s d).signalAborted = false ∧
    emptyState.signalAborted = false ∧
    (abandonMid (.strV "c")).1.signalAborted = false ∧
    execReplaceWithGenerator (genResults yields ret) (fun _ => false) (fun _ => false) {} =
      yields.map (fun v => { value := v, doneFlag := false, concurrent := none }) ++
        [{ value := ret, doneFlag := true, concurrent := none }] ∧
    execPulls (genResults yields ret) (fun _ => false) = yields.length + 1 ∧
    execPulls (genResults [.strV "a", .strV "b"] .undef) (fun _ => false) = 3 ∧
    ¬ execPulls (genResults [.strV "a", .strV "b"] .undef) (fun _ => false) ≤ 1 ∧
    (State.wrapReplaceWith (State.refreshNow s).1 (some (State.refreshNow s).2) c.value
      { done := some c.doneFlag, concurrent := c.concurrent }).emitted =
      s.emitted ++ [genCommitFrame c] := by
  refine ⟨?_, rfl, rfl, ?_, execPulls_const_false yields ret, rfl, by decide,
    wrapReplaceWith_commits_one_frame s c⟩
  · cases d <;> simp [State.disconnect]
  · cases yields with
    | nil => rfl
    | cons y ys =>
      simp only [genResults, List.map_cons, List.cons_append, execReplaceWithGenerator]
      rw [genLoop_yields ret ys 1]

/-- C10 counterexample: the claim states that the cycle superseded by
the failing call has its `replaceWith` promise resolved to false; in the
code that promise (id 6) fulfills with undefined, never with false. -/
theorem c10_counterexample_promise_not_false :
    ¬ State.promSettled badStatusDrained 6 = some (.fulfilled (.js (.boolV false))) := by
  decide

/-- C10 amended: a `replaceWith` call with an out-of-range status on a
live instance fails with the range error, yet before failing it has
already aborted the in-flight pending cycle (whose returned promise is
then fulfilled with undefined, its abandonment resolution) and refreshed
the now gate from cycle 1 to the fresh cycle 2, which the failing call
never settles; no frame is committed by the failing call. -/
theorem c10_failing_call_not_atomic :
    badStatusCall.2 = .error (.statusOutOfRange 700) ∧
    pendingCycleState.nowId = 1 ∧
    State.cycleAborted pendingCycleState 1 = false ∧
    State.cycleAborted badStatusCall.1 1 = true ∧
    badStatusCall.1.nowId = 2 ∧
    State.promSettled badStatusDrained 6 = some (.fulfilled (.js .undef)) ∧
    State.cycleSettled badStatusDrained 2 = none ∧
    badStatusDrained.tasks = [] ∧
    badStatusCall.1.body = .strV "init" ∧
    badStatusCall.1.emitted.map ResponseFrame.body = [.strV "init"] ∧
    liveOpenInstance.emitted.map ResponseFrame.body = [.strV "init"] :=
  ⟨rfl, rfl, rfl, rfl, rfl, rfl, rfl, rfl, rfl, rfl, rfl⟩

end FetchPlus
